import Mathlib

/-!
# The library upload drop target of the story editor

A shallow embedding of `onDropHandler` from
`assets/src/edit-story/components/library/libraryUploadDropTarget.js`.

The handler is asynchronous but strictly sequential (`await` inside the
`for` loop), so it is embedded as a function on an explicit world that logs
the calls made to the two capabilities it consumes, `uploadFile` and
`createSnackbar`.

Modelling conventions:
* a JavaScript value that may be `undefined` (or a property that may be
  absent) is an `Option`;
* a value thrown by `uploadFile` is a fresh plain object with the data
  properties `name`, `message` and `file`;
* the closure `() => onDropHandler(xs)` stored in `retryAction` is represented
  by the array `xs` it closes over (`none` is `null`); `invokeRetryAction`
  runs it.
-/

namespace LibraryUploadDropTarget

/-- A dropped browser `File`.  The handler reads only `name`; `ref` stands for
the identity of the object, so that two files may carry the same name. -/
structure File where
  name : String
  ref : Nat
  deriving DecidableEq

/-- The object thrown by a rejected `uploadFile(file)`. -/
structure UploadError where
  name : Option String
  message : Option String
  file : Option String
  deriving DecidableEq

/-- The argument object of one `createSnackbar` call.  A property that the
object literal does not have is `none`. -/
structure Snackbar where
  type : String
  data : Option String
  message : Option String
  multiple : Option Bool
  list : Option (List (Option String))
  retryAction : Option (List File)
  deriving DecidableEq

/-- The observable effects so far: the arguments of the `uploadFile` calls and
of the `createSnackbar` calls, oldest first. -/
structure World where
  uploaded : List File
  snackbars : List Snackbar
  deriving DecidableEq

/-- What the component obtains from `useUploader()` and from
`@wordpress/i18n`.  `uploadFile w file` is the settlement of the call
`uploadFile(file)` made in world `w`: `none` when the promise resolves,
`some e` when it rejects with `e`.  `translate` is the function `__`. -/
structure Env where
  uploadFile : World → File → Option UploadError
  translate : String → String → String
  validErrorMessage : String
  sizeErrorMessage : String

/-- The four arrays declared at the top of `onDropHandler` (lines 46-49). -/
structure Locals where
  possibleRetryFiles : List File
  sizeErrorFiles : List UploadError
  validErrorFiles : List UploadError
  otherErrorFiles : List UploadError
  deriving DecidableEq

/-- The arrays as declared: all empty. -/
def Locals.init : Locals :=
  { possibleRetryFiles := [], sizeErrorFiles := [], validErrorFiles := [], otherErrorFiles := [] }

/-- The test of line 56: `e.name !== 'SizeError' && e.name !== 'ValidError'`. -/
def isRetryable (e : UploadError) : Bool :=
  decide (e.name ≠ some "SizeError") && decide (e.name ≠ some "ValidError")

/-- The assignments of lines 58-59 to the caught object, made when the test of
line 56 holds. -/
def catchMutation (env : Env) (file : File) (e : UploadError) : UploadError :=
  if isRetryable e then
    { e with
      message := some (env.translate "Sorry, file has failed to upload" "web-stories")
      file := some file.name }
  else e

/-- The expression `xs.length > 0 ? () => onDropHandler(xs) : null`. -/
def retryActionFor (xs : List File) : Option (List File) :=
  if xs.length > 0 then some xs else none

/-- The call `createSnackbar(s)`. -/
def createSnackbar (s : Snackbar) (w : World) : World :=
  { w with snackbars := w.snackbars ++ [s] }

/-- The object literal of lines 62-70, for the caught (and possibly mutated)
object `e` and the current `possibleRetryFiles`. -/
def errorSnackbar (e : UploadError) (possibleRetryFiles : List File) : Snackbar :=
  { type := "error"
    data := e.name
    message := e.message
    multiple := none
    list := none
    retryAction := retryActionFor possibleRetryFiles }

/-- The object literal of lines 89-96. -/
def listSnackbar (message : String) (list : List (Option String)) (retryList : List File) :
    Snackbar :=
  { type := "error"
    data := none
    message := some message
    multiple := some true
    list := some list
    retryAction := retryActionFor retryList }

/-- The `catch` block (lines 55-84) for the object `e` thrown while uploading
`file`. -/
def catchBlock (env : Env) (isMultiple : Bool) (file : File) (e : UploadError)
    (st : Locals × World) : Locals × World :=
  let l := st.1
  let w := st.2
  let l1 : Locals :=
    if isRetryable e then { l with possibleRetryFiles := l.possibleRetryFiles ++ [file] } else l
  let e1 := catchMutation env file e
  if !isMultiple then
    (l1, createSnackbar (errorSnackbar e1 l1.possibleRetryFiles) w)
  else if e1.name = some "SizeError" then
    ({ l1 with sizeErrorFiles := l1.sizeErrorFiles ++ [e1] }, w)
  else if e1.name = some "ValidError" then
    ({ l1 with validErrorFiles := l1.validErrorFiles ++ [e1] }, w)
  else
    ({ l1 with otherErrorFiles := l1.otherErrorFiles ++ [e1] }, w)

/-- One iteration of the `for` loop (lines 51-85). -/
def loopBody (env : Env) (isMultiple : Bool) (st : Locals × World) (file : File) :
    Locals × World :=
  let settled := env.uploadFile st.2 file
  let w1 : World := { st.2 with uploaded := st.2.uploaded ++ [file] }
  match settled with
  | none => (st.1, w1)
  | some e => catchBlock env isMultiple file e (st.1, w1)

/-- The `for (const file of files)` loop. -/
def runLoop (env : Env) (isMultiple : Bool) (files : List File) (st : Locals × World) :
    Locals × World :=
  files.foldl (loopBody env isMultiple) st

/-- The local function `createSnackbarWithList` (lines 87-97). -/
def createSnackbarWithList (message : String) (list : List (Option String))
    (retryList : List File) (w : World) : World :=
  if list.length = 0 then w
  else createSnackbar (listSnackbar message list retryList) w

/-- The state of the handler when the loop has finished: the four arrays and
the world. -/
def afterLoop (env : Env) (files : List File) (w : World) : Locals × World :=
  runLoop env (decide (files.length > 1)) files (Locals.init, w)

/-- The three `createSnackbarWithList` calls of lines 99-115. -/
def reportLists (env : Env) (l : Locals) (w : World) : World :=
  let w1 := createSnackbarWithList (env.translate "Sorry, files has failed to upload" "web-stories")
    (l.otherErrorFiles.map (fun e => e.file)) l.possibleRetryFiles w
  let w2 := createSnackbarWithList env.sizeErrorMessage
    (l.sizeErrorFiles.map (fun e => e.file)) l.possibleRetryFiles w1
  createSnackbarWithList env.validErrorMessage
    (l.validErrorFiles.map (fun e => e.file)) l.possibleRetryFiles w2

/-- The handler `onDropHandler(files)`, run to completion from world `w`. -/
def onDropHandler (env : Env) (files : List File) (w : World) : World :=
  let st := afterLoop env files w
  if decide (files.length > 1) then reportLists env st.1 st.2 else st.2

/-- Calling `s.retryAction()` for a notification `s`: nothing when it is
`null`, otherwise the closed-over call of `onDropHandler`. -/
def invokeRetryAction (env : Env) (s : Snackbar) (w : World) : World :=
  match s.retryAction with
  | none => w
  | some xs => onDropHandler env xs w

/-- The `createSnackbar` calls made by `onDropHandler(files)` started in `w`. -/
def emitted (env : Env) (files : List File) (w : World) : List Snackbar :=
  (onDropHandler env files w).snackbars.drop w.snackbars.length

/-- How a run of asynchronous code settles: it completes normally with a
value, or it throws (its promise rejects with) a reason; either way it leaves
a world. -/
inductive Settled (α : Type) where
  | fulfilled (value : α) (w : World)
  | rejected (reason : UploadError) (w : World)

/-- The expression `await uploadFile(file)` of line 54: the call is logged, and
the expression throws when the promise rejects. -/
def awaitUploadFile (env : Env) (file : File) (w : World) : Settled Unit :=
  match env.uploadFile w file with
  | none => Settled.fulfilled () { w with uploaded := w.uploaded ++ [file] }
  | some e => Settled.rejected e { w with uploaded := w.uploaded ++ [file] }

/-- The statement `try { await uploadFile(file); } catch (e) { ... }` of lines
52-84, with the exception made explicit: what the `try` block throws is bound
to `e` and handed to the catch block. -/
def tryUpload (env : Env) (isMultiple : Bool) (l : Locals) (file : File) (w : World) :
    Settled Locals :=
  match awaitUploadFile env file w with
  | Settled.fulfilled _ w1 => Settled.fulfilled l w1
  | Settled.rejected e w1 =>
    Settled.fulfilled (catchBlock env isMultiple file e (l, w1)).1
      (catchBlock env isMultiple file e (l, w1)).2

/-- The `for (const file of files)` loop with exceptions made explicit: an
iteration that throws ends the loop. -/
def forOfFiles (env : Env) (isMultiple : Bool) : List File → Locals → World → Settled Locals
  | [], l, w => Settled.fulfilled l w
  | file :: rest, l, w =>
    match tryUpload env isMultiple l file w with
    | Settled.fulfilled l1 w1 => forOfFiles env isMultiple rest l1 w1
    | Settled.rejected e w1 => Settled.rejected e w1

/-- The promise returned by `onDropHandler(files)`, with exceptions made
explicit. -/
def onDropHandlerSettled (env : Env) (files : List File) (w : World) : Settled Unit :=
  match forOfFiles env (decide (files.length > 1)) files Locals.init w with
  | Settled.fulfilled l w1 =>
    if decide (files.length > 1) then Settled.fulfilled () (reportLists env l w1)
    else Settled.fulfilled () w1
  | Settled.rejected e w1 => Settled.rejected e w1

/-- The settlements of the successive `uploadFile` calls of a batch started in
world `w`, paired with their files: the call for a file is made in the world
that has logged the uploads of the files before it. -/
def settlements (env : Env) : List File → World → List (File × Option UploadError)
  | [], _ => []
  | f :: fs, w =>
    (f, env.uploadFile w f) :: settlements env fs { w with uploaded := w.uploaded ++ [f] }

/-- The failures among the settlements, each with its file. -/
def failures (env : Env) (files : List File) (w : World) : List (File × UploadError) :=
  (settlements env files w).filterMap (fun p => p.2.map (fun e => (p.1, e)))

/-- The number of uploads of the batch that resolved. -/
def successCount (env : Env) (files : List File) (w : World) : Nat :=
  ((settlements env files w).filter (fun p => p.2.isNone)).length

/-- The failures of the batch whose name is neither `SizeError` nor
`ValidError`, in input order. -/
def otherFailures (env : Env) (files : List File) (w : World) : List (File × UploadError) :=
  (failures env files w).filter (fun p => isRetryable p.2)

/-- The failures of the batch named `SizeError`, in input order. -/
def sizeFailures (env : Env) (files : List File) (w : World) : List (File × UploadError) :=
  (failures env files w).filter (fun p => decide (p.2.name = some "SizeError"))

/-- The failures of the batch named `ValidError`, in input order. -/
def validFailures (env : Env) (files : List File) (w : World) : List (File × UploadError) :=
  (failures env files w).filter (fun p => decide (p.2.name = some "ValidError"))

/-- The retry set of the batch: the files of `otherFailures`. -/
def retrySet (env : Env) (files : List File) (w : World) : List File :=
  (otherFailures env files w).map (fun p => p.1)

/-- The text `__('Sorry, file has failed to upload', 'web-stories')`. -/
def genericMessage (env : Env) : String :=
  env.translate "Sorry, file has failed to upload" "web-stories"

/-- The text `__('Sorry, files has failed to upload', 'web-stories')`. -/
def genericListMessage (env : Env) : String :=
  env.translate "Sorry, files has failed to upload" "web-stories"

/-- The arrays `l` after the catch blocks of the failures `fs` have run in a
multi-file batch. -/
def multiLocals (env : Env) (l : Locals) (fs : List (File × UploadError)) : Locals :=
  { possibleRetryFiles :=
      l.possibleRetryFiles ++ (fs.filter (fun p => isRetryable p.2)).map (fun p => p.1)
    sizeErrorFiles :=
      l.sizeErrorFiles ++
        (fs.filter (fun p => decide (p.2.name = some "SizeError"))).map (fun p => p.2)
    validErrorFiles :=
      l.validErrorFiles ++
        (fs.filter (fun p => decide (p.2.name = some "ValidError"))).map (fun p => p.2)
    otherErrorFiles :=
      l.otherErrorFiles ++
        (fs.filter (fun p => isRetryable p.2)).map (fun p => catchMutation env p.1 p.2) }

/-- Test environments. -/
def sampleEnv (up : File → Option UploadError) : Env :=
  { uploadFile := fun _ f => up f
    translate := fun text _ => text
    validErrorMessage := "No valid file type"
    sizeErrorMessage := "File too large" }

/-- Sample files. -/
def aGif : File := { name := "a.gif", ref := 0 }

/-- Sample file. -/
def bGif : File := { name := "b.gif", ref := 1 }

/-- Sample file. -/
def cPng : File := { name := "c.png", ref := 2 }

/-- Sample file. -/
def bPdf : File := { name := "b.pdf", ref := 3 }

/-- A failure as the uploader raises it for a file that is too large. -/
def sizeError (fileName : Option String) : UploadError :=
  { name := some "SizeError", message := some "File too large", file := fileName }

/-- A failure as the uploader raises it for a file of a wrong type. -/
def validError (fileName : Option String) : UploadError :=
  { name := some "ValidError", message := some "No valid file type", file := fileName }

/-- A failure of the transport, without a `file` property. -/
def networkError : UploadError :=
  { name := some "NetworkError", message := some "Failed to fetch", file := none }

/-- Every upload is rejected as too large. -/
def envAllTooLarge : Env := sampleEnv (fun f => some (sizeError (some f.name)))

/-- The uploads of `a.gif` and `b.gif` fail in the transport, that of `b.pdf`
is rejected as too large, the others succeed. -/
def envMixed : Env :=
  sampleEnv (fun f =>
    if f.name = "a.gif" then some networkError
    else if f.name = "b.gif" then some networkError
    else if f.name = "b.pdf" then some (sizeError (some f.name))
    else none)

/-- The upload of `b.pdf` is rejected as too large with a failure that has no
`file` property; the other uploads succeed. -/
def envSizeWithoutFile : Env :=
  sampleEnv (fun f => if f.name = "b.pdf" then some (sizeError none) else none)

/-- Sample file. -/
def aPng : File := { name := "a.png", ref := 4 }

/-- Sample file. -/
def xPdf : File := { name := "x.pdf", ref := 5 }

/-- Sample file. -/
def yPdf : File := { name := "y.pdf", ref := 6 }

/-- The upload of `x.pdf` is rejected as of a wrong type, that of `y.pdf` as too
large; the other uploads succeed. -/
def envValidAndSize : Env :=
  sampleEnv (fun f =>
    if f.name = "x.pdf" then some (validError (some f.name))
    else if f.name = "y.pdf" then some (sizeError (some f.name))
    else none)

/-- The empty world. -/
def World.empty : World := { uploaded := [], snackbars := [] }

/-! ## The loop -/

theorem isRetryable_iff (e : UploadError) :
    isRetryable e = true ↔ e.name ≠ some "SizeError" ∧ e.name ≠ some "ValidError" := by
  simp [isRetryable]

theorem catchMutation_name (env : Env) (file : File) (e : UploadError) :
    (catchMutation env file e).name = e.name := by
  unfold catchMutation
  split <;> rfl

theorem catchMutation_of_not_retryable (env : Env) (file : File) (e : UploadError)
    (h : isRetryable e = false) : catchMutation env file e = e := by
  simp [catchMutation, h]

theorem multiLocals_nil (env : Env) (l : Locals) : multiLocals env l [] = l := by
  simp [multiLocals]

theorem catchBlock_multi (env : Env) (file : File) (e : UploadError) (l : Locals) (w : World) :
    catchBlock env true file e (l, w) = (multiLocals env l [(file, e)], w) := by
  by_cases h1 : e.name = some "SizeError"
  · simp [catchBlock, multiLocals, isRetryable, catchMutation, h1]
  · by_cases h2 : e.name = some "ValidError"
    · simp [catchBlock, multiLocals, isRetryable, catchMutation, h2]
    · simp [catchBlock, multiLocals, isRetryable, catchMutation, h1, h2]

theorem multiLocals_cons (env : Env) (l : Locals) (p : File × UploadError)
    (fs : List (File × UploadError)) :
    multiLocals env (multiLocals env l [p]) fs = multiLocals env l (p :: fs) := by
  simp [multiLocals, List.filter_cons]
  refine ⟨?_, ?_, ?_, ?_⟩ <;> split <;> simp

theorem runLoop_multi (env : Env) (files : List File) (l : Locals) (w : World) :
    runLoop env true files (l, w) =
      (multiLocals env l (failures env files w),
        { uploaded := w.uploaded ++ files, snackbars := w.snackbars }) := by
  induction files generalizing l w with
  | nil => simp [runLoop, failures, settlements, multiLocals]
  | cons f fs ih =>
    have ih2 := fun l w => ih l w
    simp only [runLoop] at ih2
    simp only [runLoop, List.foldl_cons, loopBody]
    cases hs : env.uploadFile w f with
    | none =>
      simp only [ih2]
      simp [failures, settlements, hs]
    | some e =>
      simp only [catchBlock_multi, ih2]
      simp [failures, settlements, hs, multiLocals_cons]

/-! ## The handler in its two modes -/

theorem loopBody_uploaded (env : Env) (b : Bool) (st : Locals × World) (file : File) :
    (loopBody env b st file).2.uploaded = st.2.uploaded ++ [file] := by
  unfold loopBody
  cases env.uploadFile st.2 file with
  | none => rfl
  | some e =>
    simp only [catchBlock]
    split
    · rfl
    · split
      · rfl
      · split <;> rfl

theorem runLoop_uploaded (env : Env) (b : Bool) (files : List File) (st : Locals × World) :
    (runLoop env b files st).2.uploaded = st.2.uploaded ++ files := by
  induction files generalizing st with
  | nil => simp [runLoop]
  | cons f fs ih =>
    have ih2 := ih (loopBody env b st f)
    simp only [runLoop] at ih2
    simp [runLoop, ih2, loopBody_uploaded]

theorem createSnackbarWithList_uploaded (message : String) (list : List (Option String))
    (retryList : List File) (w : World) :
    (createSnackbarWithList message list retryList w).uploaded = w.uploaded := by
  unfold createSnackbarWithList
  split <;> rfl

theorem createSnackbarWithList_snackbars (message : String) (list : List (Option String))
    (retryList : List File) (w : World) :
    (createSnackbarWithList message list retryList w).snackbars =
      w.snackbars ++ (if list = [] then [] else [listSnackbar message list retryList]) := by
  unfold createSnackbarWithList
  cases list <;> simp [createSnackbar]

/-- The notifications of the three `createSnackbarWithList` calls for the
arrays `l`. -/
theorem reportLists_snackbars (env : Env) (l : Locals) (w : World) :
    (reportLists env l w).snackbars = w.snackbars ++
      ((if l.otherErrorFiles = [] then [] else
          [listSnackbar (genericListMessage env) (l.otherErrorFiles.map (fun e => e.file))
            l.possibleRetryFiles]) ++
        (if l.sizeErrorFiles = [] then [] else
          [listSnackbar env.sizeErrorMessage (l.sizeErrorFiles.map (fun e => e.file))
            l.possibleRetryFiles]) ++
        (if l.validErrorFiles = [] then [] else
          [listSnackbar env.validErrorMessage (l.validErrorFiles.map (fun e => e.file))
            l.possibleRetryFiles])) := by
  simp [reportLists, createSnackbarWithList_snackbars, genericListMessage, List.append_assoc]

theorem afterLoop_multi (env : Env) (files : List File) (w : World) (h : files.length ≠ 1) :
    afterLoop env files w =
      (multiLocals env Locals.init (failures env files w),
        { uploaded := w.uploaded ++ files, snackbars := w.snackbars }) := by
  unfold afterLoop
  by_cases h1 : files.length > 1
  · simp only [h1, decide_True, runLoop_multi]
  · have h0 : files = [] := by
      cases files with
      | nil => rfl
      | cons a t =>
        cases t with
        | nil => simp at h
        | cons b t => simp at h1
    subst h0
    simp [runLoop, failures, settlements, multiLocals, Locals.init]

theorem afterLoop_single (env : Env) (f : File) (w : World) :
    afterLoop env [f] w =
      match env.uploadFile w f with
      | none => (Locals.init, { uploaded := w.uploaded ++ [f], snackbars := w.snackbars })
      | some e =>
        ({ Locals.init with possibleRetryFiles := if isRetryable e then [f] else [] },
          { uploaded := w.uploaded ++ [f]
            snackbars := w.snackbars ++
              [errorSnackbar (catchMutation env f e) (if isRetryable e then [f] else [])] }) := by
  unfold afterLoop
  simp only [runLoop, List.length_singleton, gt_iff_lt, lt_self_iff_false, decide_False,
    List.foldl_cons, List.foldl_nil, loopBody]
  cases env.uploadFile w f with
  | none => rfl
  | some e =>
    by_cases hr : isRetryable e = true
    · simp [catchBlock, hr, createSnackbar, Locals.init]
    · simp [catchBlock, hr, createSnackbar, Locals.init]

theorem emitted_multi (env : Env) (files : List File) (w : World) (h : 1 < files.length) :
    emitted env files w =
      (if otherFailures env files w = [] then [] else
          [listSnackbar (genericListMessage env)
            ((otherFailures env files w).map (fun p => (catchMutation env p.1 p.2).file))
            (retrySet env files w)]) ++
        (if sizeFailures env files w = [] then [] else
          [listSnackbar env.sizeErrorMessage ((sizeFailures env files w).map (fun p => p.2.file))
            (retrySet env files w)]) ++
        (if validFailures env files w = [] then [] else
          [listSnackbar env.validErrorMessage ((validFailures env files w).map (fun p => p.2.file))
            (retrySet env files w)]) := by
  have h1 : files.length ≠ 1 := by omega
  simp only [emitted, onDropHandler, afterLoop_multi env files w h1, gt_iff_lt, h, decide_True,
    if_true, reportLists_snackbars, List.drop_left]
  simp only [multiLocals, Locals.init, otherFailures, sizeFailures, validFailures, retrySet,
    List.nil_append, List.map_map, Function.comp_def]
  generalize List.filter (fun p => isRetryable p.2) (failures env files w) = os
  generalize List.filter (fun p => decide (p.2.name = some "SizeError")) (failures env files w) = ss
  generalize List.filter (fun p => decide (p.2.name = some "ValidError")) (failures env files w) = vs
  cases os <;> cases ss <;> cases vs <;> simp

theorem emitted_single (env : Env) (f : File) (w : World) :
    emitted env [f] w =
      match env.uploadFile w f with
      | none => []
      | some e => [errorSnackbar (catchMutation env f e) (if isRetryable e then [f] else [])] := by
  simp only [emitted, onDropHandler, afterLoop_single, List.length_singleton, gt_iff_lt,
    lt_self_iff_false, decide_False]
  cases env.uploadFile w f with
  | none => simp
  | some e => simp

theorem emitted_nil (env : Env) (w : World) : emitted env [] w = [] := by
  simp [emitted, onDropHandler, afterLoop, runLoop]

/-! ## Settlements and their groups -/

theorem settlements_map_fst (env : Env) (files : List File) (w : World) :
    (settlements env files w).map Prod.fst = files := by
  induction files generalizing w with
  | nil => rfl
  | cons f fs ih => simp [settlements, ih]

theorem settlements_length (env : Env) (files : List File) (w : World) :
    (settlements env files w).length = files.length := by
  have h := congrArg List.length (settlements_map_fst env files w)
  simpa using h

theorem failures_eq_filter (env : Env) (files : List File) (w : World) :
    (failures env files w).map (fun p => (p.1, some p.2)) =
      (settlements env files w).filter (fun p => p.2.isSome) := by
  unfold failures
  induction settlements env files w with
  | nil => rfl
  | cons p ps ih =>
    obtain ⟨f, o⟩ := p
    cases o with
    | none => simpa [List.filterMap_cons] using ih
    | some e => simpa [List.filterMap_cons] using ih

theorem successCount_add_failures (env : Env) (files : List File) (w : World) :
    successCount env files w + (failures env files w).length = files.length := by
  rw [← settlements_length env files w]
  unfold successCount failures
  induction settlements env files w with
  | nil => rfl
  | cons p ps ih =>
    obtain ⟨f, o⟩ := p
    cases o with
    | none => simp [List.filterMap_cons] at ih ⊢; omega
    | some e => simp [List.filterMap_cons] at ih ⊢; omega

/-- A list of failures is, up to order, its `SizeError` entries, its
`ValidError` entries and its other entries. -/
theorem failures_perm_groups (fs : List (File × UploadError)) :
    fs.Perm
      (fs.filter (fun p => decide (p.2.name = some "SizeError")) ++
        fs.filter (fun p => decide (p.2.name = some "ValidError")) ++
        fs.filter (fun p => isRetryable p.2)) := by
  induction fs with
  | nil => simp
  | cons p ps ih =>
    by_cases h1 : p.2.name = some "SizeError"
    · have d1 : decide (p.2.name = some "SizeError") = true := by simp [h1]
      have d2 : decide (p.2.name = some "ValidError") = false := by simp [h1]
      have e1 : isRetryable p.2 = false := by simp [isRetryable, h1]
      simp only [List.filter_cons, d1, d2, e1, if_true, if_false, Bool.false_eq_true,
        List.cons_append]
      exact List.Perm.cons p ih
    · by_cases h2 : p.2.name = some "ValidError"
      · have d1 : decide (p.2.name = some "SizeError") = false := by simp [h1]
        have d2 : decide (p.2.name = some "ValidError") = true := by simp [h2]
        have e1 : isRetryable p.2 = false := by simp [isRetryable, h2]
        simp only [List.filter_cons, d1, d2, e1, if_true, if_false, Bool.false_eq_true,
          List.append_assoc, List.cons_append]
        refine (List.Perm.cons p ?_).trans List.perm_middle.symm
        simpa only [List.append_assoc] using ih
      · have d1 : decide (p.2.name = some "SizeError") = false := by simp [h1]
        have d2 : decide (p.2.name = some "ValidError") = false := by simp [h2]
        have e1 : isRetryable p.2 = true := by simp [isRetryable, h1, h2]
        simp only [List.filter_cons, d1, d2, e1, if_true, if_false, Bool.false_eq_true]
        refine (List.Perm.cons p ?_).trans List.perm_middle.symm
        exact ih

theorem retrySet_sublist (env : Env) (files : List File) (w : World) :
    (retrySet env files w).Sublist files := by
  have h1 : (retrySet env files w).Sublist ((failures env files w).map (fun p => p.1)) := by
    unfold retrySet otherFailures
    exact List.Sublist.map _ (List.filter_sublist _)
  have h2 : ((failures env files w).map (fun p => p.1)).Sublist files := by
    have h3 := congrArg (List.map Prod.fst) (failures_eq_filter env files w)
    simp only [List.map_map, Function.comp_def] at h3
    rw [h3]
    have h4 := List.Sublist.map Prod.fst
      (List.filter_sublist (p := fun p : File × Option UploadError => p.2.isSome)
        (settlements env files w))
    rw [settlements_map_fst] at h4
    exact h4
  exact h1.trans h2

theorem retryActionFor_eq (xs : List File) :
    retryActionFor xs = if xs = [] then none else some xs := by
  cases xs <;> simp [retryActionFor]

theorem afterLoop_multi_snackbars (env : Env) (files : List File) (w : World)
    (h : 1 < files.length) : (afterLoop env files w).2.snackbars = w.snackbars := by
  rw [afterLoop_multi env files w (by omega)]

theorem afterLoop_multi_possibleRetryFiles (env : Env) (files : List File) (w : World)
    (h : 1 < files.length) :
    (afterLoop env files w).1.possibleRetryFiles = retrySet env files w := by
  rw [afterLoop_multi env files w (by omega)]
  simp [multiLocals, Locals.init, retrySet, otherFailures]

theorem mem_emitted_multi (env : Env) (files : List File) (w : World) (h : 1 < files.length)
    (s : Snackbar) (hs : s ∈ emitted env files w) :
    ∃ (message : String) (list : List (Option String)),
      s = listSnackbar message list (retrySet env files w) := by
  rw [emitted_multi env files w h] at hs
  simp only [List.mem_append] at hs
  rcases hs with (hs | hs) | hs
  · split at hs
    · simp at hs
    · exact ⟨_, _, List.mem_singleton.mp hs⟩
  · split at hs
    · simp at hs
    · exact ⟨_, _, List.mem_singleton.mp hs⟩
  · split at hs
    · simp at hs
    · exact ⟨_, _, List.mem_singleton.mp hs⟩

theorem every_retry_of_multi (env : Env) (files : List File) (w : World) (h : 1 < files.length)
    (s : Snackbar) (hs : s ∈ emitted env files w) :
    s.retryAction = if retrySet env files w = [] then none else some (retrySet env files w) := by
  obtain ⟨message, list, rfl⟩ := mem_emitted_multi env files w h s hs
  simp only [listSnackbar, retryActionFor_eq]

theorem onDropHandler_uploaded (env : Env) (files : List File) (w : World) :
    (onDropHandler env files w).uploaded = w.uploaded ++ files := by
  unfold onDropHandler
  have h := runLoop_uploaded env (decide (files.length > 1)) files (Locals.init, w)
  split
  · simp only [reportLists, createSnackbarWithList_uploaded]
    exact h
  · exact h

theorem forOfFiles_eq_runLoop (env : Env) (b : Bool) (files : List File) (l : Locals)
    (w : World) :
    forOfFiles env b files l w =
      Settled.fulfilled (runLoop env b files (l, w)).1 (runLoop env b files (l, w)).2 := by
  induction files generalizing l w with
  | nil => rfl
  | cons f fs ih =>
    simp only [forOfFiles, tryUpload, awaitUploadFile, runLoop, List.foldl_cons, loopBody]
    cases env.uploadFile w f with
    | none => exact ih _ _
    | some e => exact ih _ _

theorem onDropHandler_snackbars (env : Env) (files : List File) (w : World) :
    (onDropHandler env files w).snackbars = w.snackbars ++ emitted env files w := by
  by_cases h1 : files.length = 1
  · obtain ⟨f, rfl⟩ := List.length_eq_one.mp h1
    simp only [emitted, onDropHandler, afterLoop_single, List.length_singleton, gt_iff_lt,
      lt_self_iff_false, decide_False]
    cases env.uploadFile w f with
    | none => simp
    | some e => simp
  · by_cases h0 : 1 < files.length
    · simp only [emitted, onDropHandler, gt_iff_lt, h0, decide_True, if_true,
        reportLists_snackbars, afterLoop_multi_snackbars env files w h0, List.drop_left]
    · have hnil : files = [] := by
        cases files with
        | nil => rfl
        | cons a t =>
          cases t with
          | nil => simp at h1
          | cons b t => simp at h0
      subst hnil
      simp [emitted, onDropHandler, afterLoop, runLoop]

theorem emitted_ne_nil_of_failures (env : Env) (files : List File) (w : World)
    (h : failures env files w ≠ []) : emitted env files w ≠ [] := by
  by_cases h1 : files.length = 1
  · obtain ⟨f, rfl⟩ := List.length_eq_one.mp h1
    rw [emitted_single]
    cases hu : env.uploadFile w f with
    | none => simp [failures, settlements, hu] at h
    | some e => simp
  · by_cases h0 : 1 < files.length
    · rw [emitted_multi env files w h0]
      intro hnil
      have hperm := failures_perm_groups (failures env files w)
      simp only [List.append_eq_nil] at hnil
      obtain ⟨⟨ho, hs⟩, hv⟩ := hnil
      have ho2 : otherFailures env files w = [] := by
        by_contra hne
        simp [hne] at ho
      have hs2 : sizeFailures env files w = [] := by
        by_contra hne
        simp [hne] at hs
      have hv2 : validFailures env files w = [] := by
        by_contra hne
        simp [hne] at hv
      simp only [otherFailures, sizeFailures, validFailures] at ho2 hs2 hv2
      rw [ho2, hs2, hv2] at hperm
      exact h (List.Perm.eq_nil hperm)
    · have hnil : files = [] := by
        cases files with
        | nil => rfl
        | cons a t =>
          cases t with
          | nil => simp at h1
          | cons b t => simp at h0
      subst hnil
      simp [failures, settlements] at h

/-! ## Properties of the handler -/

/-- C1: `onDropHandler` calls `uploadFile` exactly once per file, in input
order, whatever the settlements of the uploads are: the calls it adds to the
log are the input sequence itself. -/
theorem onDropHandler_uploads_every_file_in_order (env : Env) (files : List File) (w : World) :
    (onDropHandler env files w).uploaded = w.uploaded ++ files :=
  onDropHandler_uploaded env files w

/-- C2 (as stated, refuted): a batch of the single file `a.gif` whose upload
fails leaves the three arrays empty, so the four groups count 0 files, not 1. -/
theorem partition_incomplete_for_single_failure :
    (afterLoop envAllTooLarge [aGif] World.empty).1.sizeErrorFiles.length +
      (afterLoop envAllTooLarge [aGif] World.empty).1.validErrorFiles.length +
      (afterLoop envAllTooLarge [aGif] World.empty).1.otherErrorFiles.length +
      successCount envAllTooLarge [aGif] World.empty ≠ [aGif].length := by
  decide

/-- C2 (amended): for every batch whose size is not 1, the sizes of
`sizeErrorFiles`, `validErrorFiles`, `otherErrorFiles` and the number of
successful uploads add up to the number of files; the three arrays hold the
failures named `SizeError`, named `ValidError` and named otherwise, in input
order; every failure is in exactly one of the three; and every file has one
settlement, a success or a failure. -/
theorem partition_complete_unless_single (env : Env) (files : List File) (w : World)
    (h : files.length ≠ 1) :
    (afterLoop env files w).1.sizeErrorFiles.length +
        (afterLoop env files w).1.validErrorFiles.length +
        (afterLoop env files w).1.otherErrorFiles.length +
        successCount env files w = files.length ∧
      (afterLoop env files w).1.sizeErrorFiles = (sizeFailures env files w).map (fun p => p.2) ∧
      (afterLoop env files w).1.validErrorFiles = (validFailures env files w).map (fun p => p.2) ∧
      (afterLoop env files w).1.otherErrorFiles =
        (otherFailures env files w).map (fun p => catchMutation env p.1 p.2) ∧
      (failures env files w).Perm
        (sizeFailures env files w ++ validFailures env files w ++ otherFailures env files w) ∧
      (settlements env files w).map Prod.fst = files ∧
      successCount env files w + (failures env files w).length = files.length := by
  have hperm := failures_perm_groups (failures env files w)
  have hlen := hperm.length_eq
  have hsucc := successCount_add_failures env files w
  simp only [List.length_append] at hlen
  rw [afterLoop_multi env files w h]
  refine ⟨?_, ?_, ?_, ?_, hperm, settlements_map_fst env files w, hsucc⟩
  · simp only [multiLocals, Locals.init, List.nil_append, List.length_map]
    omega
  · simp [multiLocals, Locals.init, sizeFailures]
  · simp [multiLocals, Locals.init, validFailures]
  · simp [multiLocals, Locals.init, otherFailures]

/-- A run of `partition_complete_unless_single` on the batch
`[a.gif, b.pdf, c.png]`. -/
theorem partition_complete_unless_single_witness :
    [aGif, bPdf, cPng].length ≠ 1 ∧
      (afterLoop envMixed [aGif, bPdf, cPng] World.empty).1.sizeErrorFiles.length +
        (afterLoop envMixed [aGif, bPdf, cPng] World.empty).1.validErrorFiles.length +
        (afterLoop envMixed [aGif, bPdf, cPng] World.empty).1.otherErrorFiles.length +
        successCount envMixed [aGif, bPdf, cPng] World.empty = [aGif, bPdf, cPng].length :=
  ⟨by decide,
    (partition_complete_unless_single envMixed [aGif, bPdf, cPng] World.empty (by decide)).1⟩

/-- C3: in a batch of more than one file the catch block classifies by
`e.name` alone: a failure named `SizeError` is appended to `sizeErrorFiles`, one
named `ValidError` to `validErrorFiles`, and one with any other name (or none)
is appended to `otherErrorFiles` while its file is appended to
`possibleRetryFiles`, and in no other case is `possibleRetryFiles` touched.
After the loop `possibleRetryFiles` and `otherErrorFiles` have the same length
and pair up position by position: the i-th retry file is the file of the i-th
other failure. -/
theorem classification_by_name_in_multi_batch (env : Env) (files : List File) (w : World)
    (h : 1 < files.length) :
    (∀ (file : File) (e : UploadError) (l : Locals) (v : World),
        (e.name = some "SizeError" →
          catchBlock env true file e (l, v) =
            ({ l with sizeErrorFiles := l.sizeErrorFiles ++ [e] }, v)) ∧
        (e.name = some "ValidError" →
          catchBlock env true file e (l, v) =
            ({ l with validErrorFiles := l.validErrorFiles ++ [e] }, v)) ∧
        (e.name ≠ some "SizeError" → e.name ≠ some "ValidError" →
          catchBlock env true file e (l, v) =
            ({ l with
                possibleRetryFiles := l.possibleRetryFiles ++ [file]
                otherErrorFiles := l.otherErrorFiles ++
                  [{ name := e.name, message := some (genericMessage env),
                     file := some file.name }] }, v))) ∧
      (afterLoop env files w).1.possibleRetryFiles.length =
        (afterLoop env files w).1.otherErrorFiles.length ∧
      (afterLoop env files w).1.possibleRetryFiles.zip (afterLoop env files w).1.otherErrorFiles =
        (otherFailures env files w).map
          (fun p => (p.1, { name := p.2.name, message := some (genericMessage env),
                            file := some p.1.name })) ∧
      (afterLoop env files w).1.otherErrorFiles.map (fun e => e.file) =
        (afterLoop env files w).1.possibleRetryFiles.map (fun f => some f.name) := by
  have h1 : files.length ≠ 1 := by omega
  have hm : ∀ p : File × UploadError, isRetryable p.2 = true →
      catchMutation env p.1 p.2 =
        { name := p.2.name, message := some (genericMessage env), file := some p.1.name } := by
    intro p hp
    simp [catchMutation, hp, genericMessage]
  have hmap : (otherFailures env files w).map (fun p => catchMutation env p.1 p.2) =
      (otherFailures env files w).map
        (fun p => ({ name := p.2.name, message := some (genericMessage env),
                     file := some p.1.name } : UploadError)) := by
    apply List.map_congr_left
    intro p hp
    exact hm p (by simpa [otherFailures] using (List.mem_filter.mp hp).2)
  refine ⟨?_, ?_, ?_, ?_⟩
  · intro file e l v
    refine ⟨?_, ?_, ?_⟩
    · intro hs
      simp [catchBlock, isRetryable, catchMutation, hs]
    · intro hv
      simp [catchBlock, isRetryable, catchMutation, hv]
    · intro hs hv
      simp [catchBlock, isRetryable, catchMutation, hs, hv, genericMessage]
  · rw [afterLoop_multi env files w h1]
    simp [multiLocals, Locals.init]
  · rw [afterLoop_multi env files w h1]
    simp only [multiLocals, Locals.init, List.nil_append]
    change List.zip ((otherFailures env files w).map (fun p => p.1))
      ((otherFailures env files w).map (fun p => catchMutation env p.1 p.2)) = _
    rw [hmap]
    generalize otherFailures env files w = os
    induction os with
    | nil => rfl
    | cons p ps ih => simp [ih]
  · rw [afterLoop_multi env files w h1]
    simp only [multiLocals, Locals.init, List.nil_append]
    change List.map (fun e => e.file)
        ((otherFailures env files w).map (fun p => catchMutation env p.1 p.2)) =
      List.map (fun f => some f.name) ((otherFailures env files w).map (fun p => p.1))
    rw [hmap]
    simp [Function.comp_def]

/-- A run of `classification_by_name_in_multi_batch` on `[a.gif, b.pdf, c.png]`:
the retry files and the other failures pair up. -/
theorem classification_by_name_in_multi_batch_witness :
    1 < [aGif, bPdf, cPng].length ∧
      (afterLoop envMixed [aGif, bPdf, cPng] World.empty).1.otherErrorFiles.map (fun e => e.file) =
        (afterLoop envMixed [aGif, bPdf, cPng] World.empty).1.possibleRetryFiles.map
          (fun f => some f.name) :=
  ⟨by decide,
    (classification_by_name_in_multi_batch envMixed [aGif, bPdf, cPng] World.empty
      (by decide)).2.2.2⟩

/-- C4: for every batch, `possibleRetryFiles` is a sub-sequence of the input in
input order, and it consists of exactly the files at the positions whose
upload failed with a name other than `SizeError` and `ValidError`: no position
whose upload succeeded or failed with one of these two names contributes. -/
theorem retry_files_are_the_other_failures (env : Env) (files : List File) (w : World) :
    (afterLoop env files w).1.possibleRetryFiles.Sublist files ∧
      (afterLoop env files w).1.possibleRetryFiles =
        ((settlements env files w).filter
          (fun p => match p.2 with
            | none => false
            | some e => decide (e.name ≠ some "SizeError") && decide (e.name ≠ some "ValidError"))).map
          Prod.fst ∧
      (afterLoop env files w).1.possibleRetryFiles = retrySet env files w := by
  have key : (afterLoop env files w).1.possibleRetryFiles = retrySet env files w := by
    by_cases h : files.length = 1
    · obtain ⟨f, rfl⟩ := List.length_eq_one.mp h
      rw [afterLoop_single]
      cases hs : env.uploadFile w f with
      | none => simp [retrySet, otherFailures, failures, settlements, hs, Locals.init]
      | some e =>
        by_cases hr : isRetryable e = true
        · simp [retrySet, otherFailures, failures, settlements, hs, hr]
        · simp [retrySet, otherFailures, failures, settlements, hs, hr]
    · rw [afterLoop_multi env files w h]
      simp [multiLocals, Locals.init, retrySet, otherFailures]
  have shape : retrySet env files w =
      ((settlements env files w).filter
          (fun p => match p.2 with
            | none => false
            | some e => decide (e.name ≠ some "SizeError") && decide (e.name ≠ some "ValidError"))).map
          Prod.fst := by
    unfold retrySet otherFailures failures
    induction settlements env files w with
    | nil => rfl
    | cons p ps ih =>
      obtain ⟨f, o⟩ := p
      cases o with
      | none => simpa [List.filterMap_cons, List.filter_cons] using ih
      | some e =>
        by_cases hr : isRetryable e = true
        · have hr2 := hr
          simp only [isRetryable] at hr2
          simp only [List.filterMap_cons, Option.map_some', List.filter_cons, hr, hr2, if_true,
            List.map_cons]
          exact congrArg (List.cons f) ih
        · have hr2 := hr
          simp only [isRetryable] at hr2
          simp only [List.filterMap_cons, Option.map_some', List.filter_cons, hr, hr2, if_false]
          exact ih
  refine ⟨?_, ?_, key⟩
  · rw [key]
    exact retrySet_sublist env files w
  · rw [key]
    exact shape

/-- C5 (as stated, refuted): in the batch `[a.gif, b.pdf]`, where `a.gif` fails
in the transport and `b.pdf` is too large, the notification of the `SizeError`
partition is emitted with a retry action (over `[a.gif]`), not with `null`. -/
theorem size_notification_carries_retry_in_mixed_batch :
    listSnackbar envMixed.sizeErrorMessage [some "b.pdf"] [aGif] ∈
        emitted envMixed [aGif, bPdf] World.empty ∧
      (listSnackbar envMixed.sizeErrorMessage [some "b.pdf"] [aGif]).retryAction = some [aGif] := by
  decide

/-- C5 (amended): in a batch of more than one file every notification passed
to `createSnackbar`, whichever partition it reports, carries the same
`retryAction`: `null` when no upload failed with a name other than `SizeError`
and `ValidError`, and otherwise the retry of exactly the files that failed so.
So the `SizeError` and `ValidError` notifications have `retryAction = null`
exactly when the batch has no failure of the other kind. -/
theorem every_list_notification_shares_the_retry (env : Env) (files : List File) (w : World)
    (h : 1 < files.length) :
    ∀ s ∈ emitted env files w,
      s.retryAction = (if retrySet env files w = [] then none else some (retrySet env files w)) ∧
        (s.retryAction = none ↔ otherFailures env files w = []) := by
  intro s hs
  obtain ⟨message, list, rfl⟩ := mem_emitted_multi env files w h s hs
  have h1 : (listSnackbar message list (retrySet env files w)).retryAction =
      if retrySet env files w = [] then none else some (retrySet env files w) := by
    simp only [listSnackbar, retryActionFor_eq]
  refine ⟨h1, ?_⟩
  rw [h1]
  by_cases h2 : otherFailures env files w = []
  · simp [retrySet, h2]
  · have h3 : retrySet env files w ≠ [] := by
      simpa [retrySet] using h2
    simp [h2, h3]

/-- A run of `every_list_notification_shares_the_retry` on `[a.gif, b.pdf]`. -/
theorem every_list_notification_shares_the_retry_witness :
    1 < [aGif, bPdf].length ∧
      ∀ s ∈ emitted envMixed [aGif, bPdf] World.empty,
        s.retryAction =
            (if retrySet envMixed [aGif, bPdf] World.empty = [] then none
              else some (retrySet envMixed [aGif, bPdf] World.empty)) ∧
          (s.retryAction = none ↔ otherFailures envMixed [aGif, bPdf] World.empty = []) :=
  ⟨by decide, every_list_notification_shares_the_retry envMixed [aGif, bPdf] World.empty (by decide)⟩

/-- C6: for a batch of more than one file the notifications passed to
`createSnackbar` are, in this order, the one for `otherErrorFiles`, the one for
`sizeErrorFiles` and the one for `validErrorFiles`, each present exactly when
its array is not empty; so there are at most three, and each has type `error`
and `multiple = true`. -/
theorem list_notifications_in_fixed_order (env : Env) (files : List File) (w : World)
    (h : 1 < files.length) :
    emitted env files w =
        (if (afterLoop env files w).1.otherErrorFiles = [] then [] else
          [listSnackbar (env.translate "Sorry, files has failed to upload" "web-stories")
            ((afterLoop env files w).1.otherErrorFiles.map (fun e => e.file))
            (afterLoop env files w).1.possibleRetryFiles]) ++
        (if (afterLoop env files w).1.sizeErrorFiles = [] then [] else
          [listSnackbar env.sizeErrorMessage
            ((afterLoop env files w).1.sizeErrorFiles.map (fun e => e.file))
            (afterLoop env files w).1.possibleRetryFiles]) ++
        (if (afterLoop env files w).1.validErrorFiles = [] then [] else
          [listSnackbar env.validErrorMessage
            ((afterLoop env files w).1.validErrorFiles.map (fun e => e.file))
            (afterLoop env files w).1.possibleRetryFiles]) ∧
      (emitted env files w).length ≤ 3 ∧
      ∀ s ∈ emitted env files w, s.type = "error" ∧ s.multiple = some true := by
  have hshape : emitted env files w =
        (if (afterLoop env files w).1.otherErrorFiles = [] then [] else
          [listSnackbar (env.translate "Sorry, files has failed to upload" "web-stories")
            ((afterLoop env files w).1.otherErrorFiles.map (fun e => e.file))
            (afterLoop env files w).1.possibleRetryFiles]) ++
        (if (afterLoop env files w).1.sizeErrorFiles = [] then [] else
          [listSnackbar env.sizeErrorMessage
            ((afterLoop env files w).1.sizeErrorFiles.map (fun e => e.file))
            (afterLoop env files w).1.possibleRetryFiles]) ++
        (if (afterLoop env files w).1.validErrorFiles = [] then [] else
          [listSnackbar env.validErrorMessage
            ((afterLoop env files w).1.validErrorFiles.map (fun e => e.file))
            (afterLoop env files w).1.possibleRetryFiles]) := by
    simp only [emitted, onDropHandler, gt_iff_lt, h, decide_True, if_true, reportLists_snackbars,
      afterLoop_multi_snackbars env files w h, List.drop_left, genericListMessage]
  refine ⟨hshape, ?_, ?_⟩
  · rw [hshape]
    simp only [List.length_append]
    split <;> split <;> split <;> simp
  · intro s hs
    obtain ⟨message, list, rfl⟩ := mem_emitted_multi env files w h s hs
    exact ⟨rfl, rfl⟩

/-- A run of `list_notifications_in_fixed_order` on `[b.pdf, a.gif]`: the
notification of the other failure comes first although it failed last. -/
theorem list_notifications_in_fixed_order_witness :
    1 < [bPdf, aGif].length ∧
      emitted envMixed [bPdf, aGif] World.empty =
        [listSnackbar "Sorry, files has failed to upload" [some "a.gif"] [aGif],
          listSnackbar "File too large" [some "b.pdf"] [aGif]] :=
  ⟨by decide,
    (list_notifications_in_fixed_order envMixed [bPdf, aGif] World.empty (by decide)).1.trans
      (by decide)⟩

/-- C7: a batch of exactly one file emits no notification when the upload
succeeds and exactly one when it fails; that one has type `error`, is not
marked `multiple` and has no list, and its `retryAction` is non-null exactly
when the name of the failure is neither `SizeError` nor `ValidError`, in which
case it retries that file. -/
theorem single_file_is_reported_directly (env : Env) (f : File) (w : World) :
    (env.uploadFile w f = none → emitted env [f] w = []) ∧
      ∀ e, env.uploadFile w f = some e →
        ∃ s, emitted env [f] w = [s] ∧ s.type = "error" ∧ s.multiple = none ∧ s.list = none ∧
          (s.retryAction ≠ none ↔ (e.name ≠ some "SizeError" ∧ e.name ≠ some "ValidError")) ∧
          (s.retryAction ≠ none → s.retryAction = some [f]) := by
  refine ⟨?_, ?_⟩
  · intro h0
    rw [emitted_single, h0]
  · intro e he
    rw [emitted_single, he]
    refine ⟨_, rfl, rfl, rfl, rfl, ?_, ?_⟩
    · rw [← isRetryable_iff]
      by_cases hr : isRetryable e = true
      · simp [errorSnackbar, retryActionFor, hr]
      · simp [errorSnackbar, retryActionFor, hr]
    · by_cases hr : isRetryable e = true
      · simp [errorSnackbar, retryActionFor, hr]
      · simp [errorSnackbar, retryActionFor, hr]

/-- A run of `single_file_is_reported_directly` on the single file `a.gif`,
whose upload fails in the transport. -/
theorem single_file_is_reported_directly_witness :
    envMixed.uploadFile World.empty aGif = some networkError ∧
      ∃ s, emitted envMixed [aGif] World.empty = [s] ∧ s.type = "error" ∧ s.multiple = none ∧
        s.list = none ∧
        (s.retryAction ≠ none ↔
          (networkError.name ≠ some "SizeError" ∧ networkError.name ≠ some "ValidError")) ∧
        (s.retryAction ≠ none → s.retryAction = some [aGif]) :=
  ⟨by decide, (single_file_is_reported_directly envMixed aGif World.empty).2 networkError (by decide)⟩

/-- C8 (as stated, refuted): in the batch `[c.png, b.pdf]`, where `b.pdf` is
rejected with a `SizeError` that has no `file` property, the list of the
size notification is `[undefined]`, not the name of the file that failed. -/
theorem size_list_repeats_the_raised_file_field :
    emitted envSizeWithoutFile [cPng, bPdf] World.empty =
        [listSnackbar "File too large" [none] []] ∧
      (sizeFailures envSizeWithoutFile [cPng, bPdf] World.empty).map (fun p => p.1.name) =
        ["b.pdf"] := by
  decide

/-- C8 (amended): in a batch of more than one file the list of the
other-failures notification is the sequence of `file.name` of the files that
failed with another name, in input order, whatever `file` property the raised
objects had; the lists of the size and of the validation notification are the
`file` properties of the raised `SizeError` and `ValidError` objects, in input
order, hence the names of the files whenever the uploader attached them. -/
theorem list_of_each_notification (env : Env) (files : List File) (w : World)
    (h : 1 < files.length) :
    emitted env files w =
        (if otherFailures env files w = [] then [] else
          [listSnackbar (env.translate "Sorry, files has failed to upload" "web-stories")
            ((otherFailures env files w).map (fun p => some p.1.name))
            (retrySet env files w)]) ++
        (if sizeFailures env files w = [] then [] else
          [listSnackbar env.sizeErrorMessage ((sizeFailures env files w).map (fun p => p.2.file))
            (retrySet env files w)]) ++
        (if validFailures env files w = [] then [] else
          [listSnackbar env.validErrorMessage ((validFailures env files w).map (fun p => p.2.file))
            (retrySet env files w)]) ∧
      ((∀ p ∈ failures env files w, isRetryable p.2 = false → p.2.file = some p.1.name) →
        (sizeFailures env files w).map (fun p => p.2.file) =
            (sizeFailures env files w).map (fun p => some p.1.name) ∧
          (validFailures env files w).map (fun p => p.2.file) =
            (validFailures env files w).map (fun p => some p.1.name)) := by
  have hother : (otherFailures env files w).map (fun p => (catchMutation env p.1 p.2).file) =
      (otherFailures env files w).map (fun p => some p.1.name) := by
    apply List.map_congr_left
    intro p hp
    have hr : isRetryable p.2 = true := by
      simpa [otherFailures] using (List.mem_filter.mp hp).2
    simp [catchMutation, hr]
  refine ⟨?_, ?_⟩
  · rw [emitted_multi env files w h, hother]
    rfl
  · intro hfile
    refine ⟨?_, ?_⟩
    · apply List.map_congr_left
      intro p hp
      obtain ⟨hmem, hname⟩ := List.mem_filter.mp hp
      have hs : p.2.name = some "SizeError" := by simpa using hname
      exact hfile p hmem (by simp [isRetryable, hs])
    · apply List.map_congr_left
      intro p hp
      obtain ⟨hmem, hname⟩ := List.mem_filter.mp hp
      have hv : p.2.name = some "ValidError" := by simpa using hname
      exact hfile p hmem (by simp [isRetryable, hv])

/-- A run of `list_of_each_notification` on `[a.gif, b.pdf, c.png]`. -/
theorem list_of_each_notification_witness :
    1 < [aGif, bPdf, cPng].length ∧
      emitted envMixed [aGif, bPdf, cPng] World.empty =
        [listSnackbar "Sorry, files has failed to upload" [some "a.gif"] [aGif],
          listSnackbar "File too large" [some "b.pdf"] [aGif]] :=
  ⟨by decide,
    (list_of_each_notification envMixed [aGif, bPdf, cPng] World.empty (by decide)).1.trans
      (by decide)⟩

/-- C9: the catch block overwrites the message of a failure whose name is
neither `SizeError` nor `ValidError` with the text
`__('Sorry, file has failed to upload', 'web-stories')`, whatever the message
was, and sets its `file` to the name of the file; a `SizeError` or `ValidError`
failure is left exactly as raised.  So a single-file batch that fails emits
one notification whose message is that text for another failure and the raised
message for a `SizeError` or `ValidError`, and in a batch of several files the
arrays hold the failures so treated. -/
theorem message_normalised_for_other_failures_only (env : Env) (files : List File) (w : World) :
    (∀ (file : File) (e : UploadError),
        (e.name ≠ some "SizeError" → e.name ≠ some "ValidError" →
          catchMutation env file e =
            { name := e.name
              message := some (env.translate "Sorry, file has failed to upload" "web-stories")
              file := some file.name }) ∧
        (e.name = some "SizeError" ∨ e.name = some "ValidError" → catchMutation env file e = e)) ∧
      (∀ (file : File) (e : UploadError), env.uploadFile w file = some e →
        ∃ s, emitted env [file] w = [s] ∧ s.data = e.name ∧
          (e.name ≠ some "SizeError" → e.name ≠ some "ValidError" →
            s.message = some (env.translate "Sorry, file has failed to upload" "web-stories")) ∧
          (e.name = some "SizeError" ∨ e.name = some "ValidError" → s.message = e.message)) ∧
      (1 < files.length →
        (afterLoop env files w).1.otherErrorFiles =
            (otherFailures env files w).map
              (fun p => { name := p.2.name
                          message := some (env.translate "Sorry, file has failed to upload"
                            "web-stories")
                          file := some p.1.name }) ∧
          (afterLoop env files w).1.sizeErrorFiles =
            (sizeFailures env files w).map (fun p => p.2) ∧
          (afterLoop env files w).1.validErrorFiles =
            (validFailures env files w).map (fun p => p.2)) := by
  have hyes : ∀ (file : File) (e : UploadError),
      e.name ≠ some "SizeError" → e.name ≠ some "ValidError" →
        catchMutation env file e =
          { name := e.name
            message := some (env.translate "Sorry, file has failed to upload" "web-stories")
            file := some file.name } := by
    intro file e hs hv
    simp [catchMutation, isRetryable, hs, hv]
  have hno : ∀ (file : File) (e : UploadError),
      e.name = some "SizeError" ∨ e.name = some "ValidError" → catchMutation env file e = e := by
    intro file e hsv
    apply catchMutation_of_not_retryable
    rcases hsv with hs | hv
    · simp [isRetryable, hs]
    · simp [isRetryable, hv]
  refine ⟨fun file e => ⟨hyes file e, hno file e⟩, ?_, ?_⟩
  · intro file e he
    rw [emitted_single, he]
    refine ⟨_, rfl, ?_, ?_, ?_⟩
    · simp [errorSnackbar, catchMutation_name]
    · intro hs hv
      simp [errorSnackbar, hyes file e hs hv]
    · intro hsv
      simp [errorSnackbar, hno file e hsv]
  · intro h
    rw [afterLoop_multi env files w (by omega)]
    refine ⟨?_, ?_, ?_⟩
    · simp only [multiLocals, Locals.init, List.nil_append]
      apply List.map_congr_left
      intro p hp
      have hr : isRetryable p.2 = true := by
        simpa [otherFailures] using (List.mem_filter.mp hp).2
      obtain ⟨hs, hv⟩ := (isRetryable_iff p.2).mp hr
      exact hyes p.1 p.2 hs hv
    · simp [multiLocals, Locals.init, sizeFailures]
    · simp [multiLocals, Locals.init, validFailures]

/-- A run of `message_normalised_for_other_failures_only` on the single file
`a.gif`: the transport message is replaced by the generic text. -/
theorem message_normalised_for_other_failures_only_witness :
    envMixed.uploadFile World.empty aGif = some networkError ∧
      ∃ s, emitted envMixed [aGif] World.empty = [s] ∧ s.data = networkError.name ∧
        (networkError.name ≠ some "SizeError" → networkError.name ≠ some "ValidError" →
          s.message = some (envMixed.translate "Sorry, file has failed to upload" "web-stories")) ∧
        (networkError.name = some "SizeError" ∨ networkError.name = some "ValidError" →
          s.message = networkError.message) :=
  ⟨by decide,
    (message_normalised_for_other_failures_only envMixed [aGif] World.empty).2.1 aGif
      networkError (by decide)⟩

/-- C10: for every batch and every emitted notification whose `retryAction` is
not `null`, the action is the call of `onDropHandler` on the retry set of the
batch (the files that failed with a name other than `SizeError` and
`ValidError`, in input order): invoking it in any world is that call.  The
retry decides single or multiple on its own size: a retry set of one file
emits at most one notification, not marked `multiple`, and a larger one emits
only notifications marked `multiple`. -/
theorem retry_action_reruns_handler_on_retry_set (env : Env) (files : List File) (w : World)
    (s : Snackbar) (hs : s ∈ emitted env files w) (hr : s.retryAction ≠ none) :
    s.retryAction = some (retrySet env files w) ∧
      (∀ v, invokeRetryAction env s v = onDropHandler env (retrySet env files w) v) ∧
      (∀ v, (invokeRetryAction env s v).uploaded = v.uploaded ++ retrySet env files w) ∧
      ((retrySet env files w).length = 1 →
        ∀ v, (emitted env (retrySet env files w) v).length ≤ 1 ∧
          ∀ t ∈ emitted env (retrySet env files w) v, t.multiple = none ∧ t.list = none) ∧
      (1 < (retrySet env files w).length →
        ∀ v, ∀ t ∈ emitted env (retrySet env files w) v, t.multiple = some true) := by
  have hact : s.retryAction = some (retrySet env files w) := by
    by_cases h1 : files.length = 1
    · obtain ⟨f, rfl⟩ := List.length_eq_one.mp h1
      rw [emitted_single] at hs
      cases hu : env.uploadFile w f with
      | none => simp [hu] at hs
      | some e =>
        simp only [hu, List.mem_singleton] at hs
        subst hs
        by_cases hret : isRetryable e = true
        · simp [errorSnackbar, retryActionFor, hret, retrySet, otherFailures, failures,
            settlements, hu]
        · simp [errorSnackbar, retryActionFor, hret] at hr
    · by_cases h0 : files = []
      · subst h0
        simp [emitted_nil] at hs
      · have hlen : 1 < files.length := by
          cases files with
          | nil => exact absurd rfl h0
          | cons a t =>
            cases t with
            | nil => simp at h1
            | cons b t => simp
        have hall := every_retry_of_multi env files w hlen s hs
        rw [hall] at hr ⊢
        split at hr
        · exact absurd rfl hr
        · rename_i hne
          simp [hne]
  have hinv : ∀ v, invokeRetryAction env s v = onDropHandler env (retrySet env files w) v := by
    intro v
    simp [invokeRetryAction, hact]
  refine ⟨hact, hinv, ?_, ?_, ?_⟩
  · intro v
    rw [hinv v, onDropHandler_uploaded]
  · intro hone v
    obtain ⟨f, hf⟩ := List.length_eq_one.mp hone
    rw [hf, emitted_single]
    cases env.uploadFile v f with
    | none => simp
    | some e => simp [errorSnackbar]
  · intro hmany v t ht
    obtain ⟨message, list, rfl⟩ := mem_emitted_multi env _ v hmany t ht
    rfl

/-- A run of `retry_action_reruns_handler_on_retry_set` on the batch
`[a.gif, b.gif, c.png]`, where the two `.gif` uploads fail in the transport:
the one notification lists `a.gif, b.gif` and its action uploads exactly
`[a.gif, b.gif]`. -/
theorem retry_action_reruns_handler_on_retry_set_witness :
    emitted envMixed [aGif, bGif, cPng] World.empty =
        [listSnackbar "Sorry, files has failed to upload" [some "a.gif", some "b.gif"]
          [aGif, bGif]] ∧
      (listSnackbar "Sorry, files has failed to upload" [some "a.gif", some "b.gif"]
          [aGif, bGif]).retryAction ≠ none ∧
      retrySet envMixed [aGif, bGif, cPng] World.empty = [aGif, bGif] ∧
      (invokeRetryAction envMixed
          (listSnackbar "Sorry, files has failed to upload" [some "a.gif", some "b.gif"]
            [aGif, bGif]) World.empty).uploaded =
        World.empty.uploaded ++ retrySet envMixed [aGif, bGif, cPng] World.empty :=
  ⟨by decide, by decide, by decide,
    (retry_action_reruns_handler_on_retry_set envMixed [aGif, bGif, cPng] World.empty
      (listSnackbar "Sorry, files has failed to upload" [some "a.gif", some "b.gif"]
        [aGif, bGif]) (by decide) (by decide)).2.2.1 World.empty⟩

/-- C11: whatever failures `uploadFile` raises, the promise of `onDropHandler`
is fulfilled, never rejected: every thrown failure is bound by the `catch`
clause and the catch block itself throws nothing.  The world it leaves is that
of `onDropHandler`: the uploads of the batch are logged, the only other effect
is the emitted notifications, and a batch with a failure emits at least one. -/
theorem failures_are_absorbed (env : Env) (files : List File) (w : World) :
    onDropHandlerSettled env files w = Settled.fulfilled () (onDropHandler env files w) ∧
      onDropHandler env files w =
        { uploaded := w.uploaded ++ files, snackbars := w.snackbars ++ emitted env files w } ∧
      (failures env files w ≠ [] → emitted env files w ≠ []) := by
  refine ⟨?_, ?_, emitted_ne_nil_of_failures env files w⟩
  · simp only [onDropHandlerSettled, forOfFiles_eq_runLoop, onDropHandler, afterLoop]
    split <;> rfl
  · have hu := onDropHandler_uploaded env files w
    have hs := onDropHandler_snackbars env files w
    cases hw : onDropHandler env files w with
    | mk uploaded snackbars =>
      rw [hw] at hu hs
      simp only at hu hs
      rw [hu, hs]

/-- A run of `failures_are_absorbed` on `[a.gif, b.pdf, c.png]`, two of whose
uploads fail: the promise is fulfilled. -/
theorem failures_are_absorbed_witness :
    failures envMixed [aGif, bPdf, cPng] World.empty ≠ [] ∧
      onDropHandlerSettled envMixed [aGif, bPdf, cPng] World.empty =
        Settled.fulfilled () (onDropHandler envMixed [aGif, bPdf, cPng] World.empty) ∧
      emitted envMixed [aGif, bPdf, cPng] World.empty ≠ [] :=
  ⟨by decide, (failures_are_absorbed envMixed [aGif, bPdf, cPng] World.empty).1,
    (failures_are_absorbed envMixed [aGif, bPdf, cPng] World.empty).2.2 (by decide)⟩

/-- C12 (as stated, refuted): for the batch `[a.png, b.pdf]`, where `a.png`
uploads and `b.pdf` fails with the `SizeError` message `File too large`, the one
notification emitted is the list notification of the size failures: it is
marked `multiple`, since the batch has two files. -/
theorem two_file_scenario_is_reported_as_list :
    envMixed.uploadFile World.empty aPng = none ∧
      envMixed.uploadFile { World.empty with uploaded := [aPng] } bPdf =
        some (sizeError (some "b.pdf")) ∧
      emitted envMixed [aPng, bPdf] World.empty =
        [listSnackbar "File too large" [some "b.pdf"] []] ∧
      (listSnackbar "File too large" [some "b.pdf"] []).multiple = some true := by
  decide

/-- C12 (amended): for a batch of two files where the first upload succeeds
and the second fails with name `SizeError`, exactly one notification is
emitted: it has type `error`, is marked `multiple`, has the uploader's
`sizeErrorMessage` as message, lists the `file` property of the raised failure
and has `retryAction = null`. -/
theorem two_file_batch_with_one_size_failure (env : Env) (a b : File) (w : World)
    (e : UploadError) (ha : env.uploadFile w a = none)
    (hb : env.uploadFile { w with uploaded := w.uploaded ++ [a] } b = some e)
    (hn : e.name = some "SizeError") :
    ∃ s, emitted env [a, b] w = [s] ∧ s.type = "error" ∧ s.multiple = some true ∧
      s.message = some env.sizeErrorMessage ∧ s.list = some [e.file] ∧ s.retryAction = none := by
  have hf : failures env [a, b] w = [(b, e)] := by
    simp [failures, settlements, ha, hb]
  have hr : isRetryable e = false := by simp [isRetryable, hn]
  have ho : otherFailures env [a, b] w = [] := by simp [otherFailures, hf, hr]
  have hs : sizeFailures env [a, b] w = [(b, e)] := by simp [sizeFailures, hf, hn]
  have hv : validFailures env [a, b] w = [] := by simp [validFailures, hf, hn]
  refine ⟨listSnackbar env.sizeErrorMessage [e.file] [], ?_, rfl, rfl, rfl, rfl, rfl⟩
  rw [emitted_multi env [a, b] w (by simp)]
  simp [ho, hs, hv, retrySet]

/-- A run of `two_file_batch_with_one_size_failure` on `[a.png, b.pdf]`. -/
theorem two_file_batch_with_one_size_failure_witness :
    envMixed.uploadFile World.empty aPng = none ∧
      envMixed.uploadFile { World.empty with uploaded := World.empty.uploaded ++ [aPng] } bPdf =
        some (sizeError (some "b.pdf")) ∧
      (sizeError (some "b.pdf")).name = some "SizeError" ∧
      ∃ s, emitted envMixed [aPng, bPdf] World.empty = [s] ∧ s.type = "error" ∧
        s.multiple = some true ∧ s.message = some envMixed.sizeErrorMessage ∧
        s.list = some [(sizeError (some "b.pdf")).file] ∧ s.retryAction = none :=
  ⟨by decide, by decide, by decide,
    two_file_batch_with_one_size_failure envMixed aPng bPdf World.empty (sizeError (some "b.pdf"))
      (by decide) (by decide) (by decide)⟩

/-- C13: in a batch of any size in which no upload fails with a name other
than `SizeError` and `ValidError`, every emitted notification has
`retryAction = null`; and when such a batch has more than one file, at least one
`SizeError` and at least one `ValidError` failure, exactly two notifications
are emitted, one per kind. -/
theorem no_retry_without_other_failures (env : Env) (files : List File) (w : World)
    (h : otherFailures env files w = []) :
    (∀ s ∈ emitted env files w, s.retryAction = none) ∧
      (1 < files.length → sizeFailures env files w ≠ [] → validFailures env files w ≠ [] →
        emitted env files w =
          [listSnackbar env.sizeErrorMessage ((sizeFailures env files w).map (fun p => p.2.file)) [],
            listSnackbar env.validErrorMessage
              ((validFailures env files w).map (fun p => p.2.file)) []] ∧
          (emitted env files w).length = 2) := by
  have hrs : retrySet env files w = [] := by simp [retrySet, h]
  refine ⟨?_, ?_⟩
  · intro s hs
    by_cases h1 : files.length = 1
    · obtain ⟨f, rfl⟩ := List.length_eq_one.mp h1
      rw [emitted_single] at hs
      cases hu : env.uploadFile w f with
      | none => simp [hu] at hs
      | some e =>
        simp only [hu, List.mem_singleton] at hs
        subst hs
        have hnr : isRetryable e = false := by
          by_contra hne
          have hret : isRetryable e = true := by simpa using hne
          simp [otherFailures, failures, settlements, hu, hret] at h
        simp [errorSnackbar, retryActionFor, hnr]
    · by_cases h0 : 1 < files.length
      · rw [every_retry_of_multi env files w h0 s hs, hrs]
        rfl
      · have hnil : files = [] := by
          cases files with
          | nil => rfl
          | cons a t =>
            cases t with
            | nil => simp at h1
            | cons b t => simp at h0
        subst hnil
        simp [emitted_nil] at hs
  · intro hlen hsize hvalid
    have hshape : emitted env files w =
        [listSnackbar env.sizeErrorMessage ((sizeFailures env files w).map (fun p => p.2.file)) [],
          listSnackbar env.validErrorMessage
            ((validFailures env files w).map (fun p => p.2.file)) []] := by
      rw [emitted_multi env files w hlen, hrs]
      simp [h, hsize, hvalid]
    exact ⟨hshape, by rw [hshape]; rfl⟩

/-- A run of `no_retry_without_other_failures` on `[x.pdf, y.pdf]`, where
`x.pdf` fails with `ValidError` and `y.pdf` with `SizeError`: two notifications,
neither with a retry action. -/
theorem no_retry_without_other_failures_witness :
    otherFailures envValidAndSize [xPdf, yPdf] World.empty = [] ∧
      (∀ s ∈ emitted envValidAndSize [xPdf, yPdf] World.empty, s.retryAction = none) ∧
      (emitted envValidAndSize [xPdf, yPdf] World.empty).length = 2 :=
  ⟨by decide,
    (no_retry_without_other_failures envValidAndSize [xPdf, yPdf] World.empty (by decide)).1,
    ((no_retry_without_other_failures envValidAndSize [xPdf, yPdf] World.empty (by decide)).2
      (by decide) (by decide) (by decide)).2⟩

/-- C14: `onDropHandler` applied to an empty sequence of files makes no call:
the log of `uploadFile` calls and the log of `createSnackbar` calls are
unchanged, and its promise is fulfilled. -/
theorem empty_batch_is_a_no_op (env : Env) (w : World) :
    onDropHandler env [] w = w ∧ emitted env [] w = [] ∧
      onDropHandlerSettled env [] w = Settled.fulfilled () w := by
  refine ⟨rfl, emitted_nil env w, rfl⟩

end LibraryUploadDropTarget
